import Mathlib

/-!
Verification of the github-dashboard-feed userscript (version 0.9.4,
`github-dashboard-feed.userscript.js`).

The development shallowly embeds the parts of the script that the frozen
claims talk about:

* the cross-cutting formatting helpers (`timeAgo`, the notification text
  pipeline `toVisibleAscii` / truncation);
* the actor filter (`ACTOR_FILTER_LIST`, `isActorFiltered`);
* the content renderer (`renderEventCard` with its per-kind dispatch,
  `renderReactionsBar`, the Push commit bullet list);
* the feed state machine (`fetchReceivedEvents`, `initialLoad`, the More
  button click handler);
* the DOM mount (`removeOldSection`, `insertEventsSectionSibling`).

JavaScript idioms are translated explicitly: absent object fields become
`Option`, the falsy-or operator on strings becomes `jsStrOr`, template
interpolation of a possibly-undefined value becomes `jsInterp` (which
produces the literal text "undefined", as JS template literals do), and
code that can throw a TypeError is given the type `Except Unit _`.
External collaborators that the spec places out of scope (DOMPurify,
markdown-it, encodeURIComponent) are modelled as abstract pure placeholder
functions; no theorem below depends on their behaviour.
-/

namespace GhFeed

/-! ## JavaScript value helpers -/

/-- JS `s || d` for a possibly-undefined string `s`: undefined and the
empty string are falsy and yield the default. -/
def jsStrOr (o : Option String) (d : String) : String :=
  match o with
  | none => d
  | some s => if s = "" then d else s

/-- JS `n || d` for a possibly-undefined number interpolated into a
template: undefined and 0 are falsy and yield the default string `d`. -/
def jsNumOr (o : Option Int) (d : String) : String :=
  match o with
  | none => d
  | some n => if n = 0 then d else toString n

/-- JS template interpolation of a possibly-undefined string value:
`undefined` is rendered as the literal text "undefined". -/
def jsInterp (o : Option String) : String :=
  match o with
  | none => "undefined"
  | some s => s

/-- JS string truthiness for a possibly-undefined string. -/
def strTruthy (o : Option String) : Bool :=
  match o with
  | none => false
  | some s => !(s == "")

/-- JS `String.prototype.slice(0, n)` and `substring(0, n)`: the first `n`
characters (modelled over code points). -/
def jsSlice (s : String) (n : Nat) : String :=
  String.mk (s.data.take n)

/-- Worker for `splitNl`, accumulating the current segment reversed. -/
def splitNlGo : List Char → List Char → List String
  | [], acc => [String.mk acc.reverse]
  | c :: rest, acc =>
      if c = '\n' then String.mk acc.reverse :: splitNlGo rest []
      else splitNlGo rest (c :: acc)

/-- JS `String.prototype.split("\n")`: splits at every newline; the result
is never empty (splitting the empty string yields one empty segment). -/
def splitNl (s : String) : List String :=
  splitNlGo s.data []

/-- Worker for `strHasSub`: does `pat` occur at the head of `l`. -/
def charsStartWith : List Char → List Char → Bool
  | [], _ => true
  | _ :: _, [] => false
  | p :: ps, c :: cs => p == c && charsStartWith ps cs

/-- Worker for `strHasSub`: does `pat` occur anywhere in `l`. -/
def charsHaveSub (pat : List Char) : List Char → Bool
  | [] => pat.isEmpty
  | c :: cs => charsStartWith pat (c :: cs) || charsHaveSub pat cs

/-- Plain-text substring test, modelling the literal regex test used on
the Link header. -/
def strHasSub (s pat : String) : Bool :=
  charsHaveSub pat.data s.data

/-! ## External collaborators (out of scope per the spec, abstract pure
placeholders; no theorem depends on their behaviour) -/

/-- External collaborator `DOMPurify.sanitize`. -/
def DOMPurifySanitize (s : String) : String := s

/-- External collaborator `md.render` (markdown-it). -/
def mdRender (s : String) : String := s

/-- Browser builtin `encodeURIComponent`. -/
def encodeURIComponent (s : String) : String := s

/-! ## Data model (events as received from the API) -/

/-- Date input as seen by `timeAgo`: the argument may be absent (null,
undefined or the empty string, all falsy), may fail to parse (`new Date`
yields NaN), or parses to an epoch-milliseconds instant. -/
inductive JSDate where
  | absent
  | invalid
  | valid (ms : Int)
deriving DecidableEq

/-- Actor identity record of an event. -/
structure Actor where
  id : Option Int
  login : Option String
  display_login : Option String
  avatar_url : Option String
deriving DecidableEq

/-- Repository reference record of an event. -/
structure Repo where
  name : Option String
deriving DecidableEq

/-- Reaction counts of a sub-entity; the JS keys are "+1", "-1", "laugh",
"hooray", "confused", "heart", "rocket", "eyes" (here `plus1`/`minus1`
stand for the two keys that are not Lean identifiers). A `none` field
models an absent key (undefined, hence not a number). -/
structure Reactions where
  plus1 : Option Int
  minus1 : Option Int
  laugh : Option Int
  hooray : Option Int
  confused : Option Int
  heart : Option Int
  rocket : Option Int
  eyes : Option Int
deriving DecidableEq

/-- One commit record of a Push payload. -/
structure Commit where
  sha : Option String
  message : Option String
deriving DecidableEq

/-- One page record of a Gollum payload. -/
structure GollumPage where
  action : Option String
  page_name : Option String
  html_url : Option String
deriving DecidableEq

/-- Comment sub-entity. -/
structure Comment where
  html_url : Option String
  body : Option String
  commit_id : Option String
  reactions : Option Reactions
deriving DecidableEq

/-- Issue sub-entity. -/
structure Issue where
  html_url : Option String
  number : Option Int
  title : Option String
  reactions : Option Reactions
deriving DecidableEq

/-- Pull request sub-entity. -/
structure PullRequest where
  html_url : Option String
  number : Option Int
  title : Option String
  body : Option String
  reactions : Option Reactions
deriving DecidableEq

/-- Review sub-entity. -/
structure Review where
  html_url : Option String
  body : Option String
  reactions : Option Reactions
deriving DecidableEq

/-- Release sub-entity. -/
structure Release where
  html_url : Option String
  name : Option String
  tag_name : Option String
  body : Option String
  reactions : Option Reactions
deriving DecidableEq

/-- Forkee sub-entity of a Fork payload. -/
structure Forkee where
  html_url : Option String
  full_name : Option String
deriving DecidableEq

/-- Member sub-entity of a Member payload. -/
structure MemberRec where
  login : Option String
deriving DecidableEq

/-- Kind-specific payload; every field may be absent. A JSON array may
contain nulls, so the elements of `commits` and `pages` are themselves
optional: accessing a field of a null element throws in JS. -/
structure Payload where
  action : Option String
  forkee : Option Forkee
  commits : Option (List (Option Commit))
  before : Option String
  head : Option String
  size : Option Int
  ref_type : Option String
  ref : Option String
  comment : Option Comment
  issue : Option Issue
  pull_request : Option PullRequest
  review : Option Review
  member : Option MemberRec
  pages : Option (List (Option GollumPage))
  release : Option Release
deriving DecidableEq

/-- One event record as destructured by `renderEventCard`. -/
structure Event where
  type : Option String
  actor : Option Actor
  repo : Option Repo
  created_at : JSDate
  payload : Option Payload
deriving DecidableEq

/-! ## timeAgo -/

/-- Bucket cascade of `timeAgo`, as a function of the millisecond
difference `now - date`; `seconds` is `Math.floor((now - date) / 1000)`. -/
def timeAgoLabel (diffMs : Int) : String :=
    let seconds : Int := Int.fdiv diffMs 1000
    if seconds < 10 then "now"
    else if seconds < 60 then toString seconds ++ " seconds ago"
    else
      let minutes := Int.fdiv seconds 60
      if minutes < 2 then "a minute ago"
      else if minutes < 60 then toString minutes ++ " minutes ago"
      else
        let hours := Int.fdiv minutes 60
        if hours < 2 then "an hour ago"
        else if hours < 24 then toString hours ++ " hours ago"
        else
          let days := Int.fdiv hours 24
          if days < 2 then "a day ago"
          else if days < 7 then toString days ++ " days ago"
          else
            let weeks := Int.fdiv days 7
            if weeks < 2 then "a week ago"
            else toString weeks ++ " weeks ago"

/-- `timeAgo(dateString)`: formats a date string as a relative label.
Falsy input and unparsable dates yield the empty string; otherwise the
label comes from the bucket cascade. -/
def timeAgo (d : JSDate) (nowMs : Int) : String :=
  match d with
  | .absent => ""
  | .invalid => ""
  | .valid ms => timeAgoLabel (nowMs - ms)

/-! ## Notification text pipeline (rewriteConsole) -/

/-- `NOTIFICATION_MAX_LENGTH` constant of the script. -/
def NOTIFICATION_MAX_LENGTH : Nat := 200

/-- The character replacement of `toVisibleAscii`: a character outside
the printable ASCII range `\x20`..`\x7E` becomes a question mark. -/
def asciiMap (c : Char) : Char :=
  if 0x20 ≤ c.toNat ∧ c.toNat ≤ 0x7E then c else '?'

/-- `toVisibleAscii(str)`: replaces every character outside the printable
ASCII range with a question mark. -/
def toVisibleAscii (s : String) : String :=
  String.mk (s.data.map asciiMap)

/-- The text handed to `GM.notification` by `wrapConsole`: the ASCII
rendering, truncated to `NOTIFICATION_MAX_LENGTH` characters with an
appended three-character ellipsis when longer. -/
def notifyText (s : String) : String :=
  let asciiText := toVisibleAscii s
  if asciiText.length > NOTIFICATION_MAX_LENGTH
  then jsSlice asciiText NOTIFICATION_MAX_LENGTH ++ "..."
  else asciiText

/-! ## Actor filter -/

/-- One rule of `ACTOR_FILTER_LIST`; each field may be absent, and JS
`Object.keys` iterates only the present fields. -/
structure ActorFilterRule where
  id : Option Int
  login : Option String
  display_login : Option String
deriving DecidableEq

/-- The hard-coded `ACTOR_FILTER_LIST` of the script. -/
def ACTOR_FILTER_LIST : List ActorFilterRule :=
  [⟨none, some "GitHub Enterprise", some "GitHub Enterprise"⟩,
   ⟨some 49699333, some "dependabot[bot]", none⟩,
   ⟨some 27856297, some "dependabot-preview[bot]", some "dependabot-preview[bot]"⟩,
   ⟨some 41898282, some "github-actions[bot]", some "github-actions[bot]"⟩,
   ⟨none, some "GitHub Action", some "actions-user"⟩,
   ⟨none, none, some "dependabot support"⟩,
   ⟨none, some "web-flow", some "web-flow"⟩]

/-- `actor[key] === rule[key]` for one key: the key is present on the rule
(otherwise `Object.keys` skips it) and the actor value is present and
strictly equal. -/
def fieldHit {α : Type} [DecidableEq α] (ruleField actorField : Option α) : Bool :=
  match ruleField, actorField with
  | some v, some w => decide (v = w)
  | _, _ => false

/-- Inner loop of `isActorFiltered` for one rule: any present field
matching is sufficient (fields are OR-ed). -/
def ruleMatches (rule : ActorFilterRule) (a : Actor) : Bool :=
  fieldHit rule.id a.id || fieldHit rule.login a.login ||
    fieldHit rule.display_login a.display_login

/-- `isActorFiltered(actor)`: false for a null/absent actor, otherwise
true when any rule of `ACTOR_FILTER_LIST` matches (rules are OR-ed). -/
def isActorFiltered (actor : Option Actor) : Bool :=
  match actor with
  | none => false
  | some a => ACTOR_FILTER_LIST.any (fun rule => ruleMatches rule a)

/-! ## Mount (removeOldSection / insertEventsSectionSibling)

The document is modelled as the list of the ids of its element nodes in
tree order; `document.getElementById` returns the first node with the
given id and `removeChild` removes exactly that node. -/

/-- `removeOldSection(sectionId)`: removes the first node with the given
id from the document, if any. -/
def removeOldSection (doc : List String) (sectionId : String) : List String :=
  match doc with
  | [] => []
  | x :: xs => if x = sectionId then xs else x :: removeOldSection xs sectionId

/-- `insertEventsSectionSibling(cardsWrapper, parent, sectionId)`: removes
any old section with the id, gives the wrapper that id and inserts it
before the first child of the parent. -/
def insertEventsSectionSibling (doc : List String) (sectionId : String) : List String :=
  sectionId :: removeOldSection doc sectionId

/-- Number of nodes of the document carrying a given id. -/
def countId (doc : List String) (sectionId : String) : Nat :=
  doc.countP (fun x => decide (x = sectionId))

/-- `n` successive invocations of the section-insertion operation with the
same section id. -/
def insertIter (doc : List String) (sectionId : String) : Nat → List String
  | 0 => doc
  | n + 1 => insertEventsSectionSibling (insertIter doc sectionId n) sectionId

/-! ## Reactions bar -/

/-- One entry of the `reactionMeta` table. -/
structure ReactionMeta where
  key : String
  emoji : String
  label : String
deriving DecidableEq

/-- The fixed `reactionMeta` table of `renderReactionsBar` (8 known
reaction kinds, in source order). -/
def reactionMeta : List ReactionMeta :=
  [⟨"+1", "👍", "Thumbs up"⟩,
   ⟨"-1", "👎", "Thumbs down"⟩,
   ⟨"laugh", "😄", "Laugh"⟩,
   ⟨"hooray", "🎉", "Hooray"⟩,
   ⟨"confused", "😕", "Confused"⟩,
   ⟨"heart", "❤️", "Heart"⟩,
   ⟨"rocket", "🚀", "Rocket"⟩,
   ⟨"eyes", "👀", "Eyes"⟩]

/-- JS `reactions[key]` lookup on the reactions record. -/
def reactGet (r : Reactions) (k : String) : Option Int :=
  if k = "+1" then r.plus1
  else if k = "-1" then r.minus1
  else if k = "laugh" then r.laugh
  else if k = "hooray" then r.hooray
  else if k = "confused" then r.confused
  else if k = "heart" then r.heart
  else if k = "rocket" then r.rocket
  else if k = "eyes" then r.eyes
  else none

/-- JS `reactions?.[key]` on a possibly-absent reactions record. -/
def reactCount (reactions : Option Reactions) (k : String) : Option Int :=
  match reactions with
  | none => none
  | some r => reactGet r k

/-- JS `typeof reactions[key] === "number" && reactions[key] > 0`. -/
def jsPos (o : Option Int) : Bool :=
  match o with
  | some c => decide (0 < c)
  | none => false

/-- One rendered reaction badge: disabled button with an aria label of the
form `"<count> <label>"` showing the emoji and the count. -/
structure Badge where
  key : String
  emoji : String
  label : String
  count : Int
  ariaLabel : String
  disabled : Bool
deriving DecidableEq

/-- Badge built by the inner loop of `renderReactionsBar` for one active
reaction kind. -/
def mkBadge (m : ReactionMeta) (count : Int) : Badge :=
  ⟨m.key, m.emoji, m.label, count, toString count ++ " " ++ m.label, true⟩

/-- Body of the badge-building loop of `renderReactionsBar` for one table
entry: a badge when the count is a positive number, nothing otherwise. -/
def badgeOf (r : Reactions) (m : ReactionMeta) : Option Badge :=
  match reactGet r m.key with
  | some c => if 0 < c then some (mkBadge m c) else none
  | none => none

/-- `renderReactionsBar(reactions)`: `null` when the record is absent or
no known kind has a positive numeric count; otherwise the bar with one
badge per positive kind, in table order. -/
def renderReactionsBar (reactions : Option Reactions) : Option (List Badge) :=
  match reactions with
  | none => none
  | some r =>
    let hasAny := reactionMeta.any (fun m => jsPos (reactGet r m.key))
    if hasAny then some (reactionMeta.filterMap (badgeOf r))
    else none

/-- Serialization of one badge (DOM `outerHTML`; inline-style attribute
serialization, a browser concern, is abbreviated). -/
def badgeOuterHtml (b : Badge) : String :=
  "<button type=\"button\" disabled class=\"btn btn-sm btn-reaction\" aria-label=\"" ++
    b.ariaLabel ++ "\"><span style=\"font-size:15px;line-height:1\">" ++ b.emoji ++
    "</span> <span style=\"margin-left:2px\">" ++ toString b.count ++ "</span></button>"

/-- Serialization of the whole bar (DOM `outerHTML` of the wrapper div). -/
def barOuterHtml (bs : List Badge) : String :=
  "<div class=\"gh-dashboard-reactions-bar\">" ++
    String.join (bs.map badgeOuterHtml) ++ "</div>"

/-- The `if (payload?....?.reactions) { const bar = renderReactionsBar(...);
if (bar) content += bar.outerHTML; }` pattern shared by the comment, issue,
pull-request, review and release branches. -/
def reactionsSuffix (r : Option Reactions) : String :=
  match r with
  | none => ""
  | some rr =>
    match renderReactionsBar (some rr) with
    | some bs => barOuterHtml bs
    | none => ""

/-! ## Content renderer -/

/-- Renderer configuration: the `renderBodyEnabled` toggle and whether the
markdown engine `md` was initialized (non-null). -/
structure Config where
  renderBodyEnabled : Bool
  mdReady : Bool
deriving DecidableEq

/-- `renderBodyOrShortHtml(body, html)`: empty when body rendering is off;
otherwise a wrapper div around the sanitized pre-rendered html (preferred
when truthy), else the sanitized markdown rendering of the body (when the
body is truthy and `md` is initialized), else nothing. -/
def renderBodyOrShortHtml (cfg : Config) (body html : Option String) : String :=
  if !cfg.renderBodyEnabled then ""
  else
    "<div style=\"max-width:340px;margin-left:35px;overflow-wrap:break-word;\">" ++
      (if strTruthy html then
        "<div class=\"event-body-html\">" ++ DOMPurifySanitize (html.getD "") ++ "</div>"
      else if strTruthy body && cfg.mdReady then
        "<div class=\"event-body-md\">" ++ DOMPurifySanitize (mdRender (body.getD "")) ++ "</div>"
      else "") ++ "</div>"

/-- The `actorLink` fragment: a bold profile link when the actor and its
login are truthy, else the empty string. -/
def actorLinkOf (e : Event) : String :=
  match e.actor with
  | none => ""
  | some a =>
    match a.login with
    | none => ""
    | some l =>
      if l = "" then ""
      else "<a style=\"font-weight:bold\" href=\"https://github.com/" ++
        encodeURIComponent l ++ "\" target=\"_blank\" rel=\"noopener noreferrer\">" ++
        l ++ "</a>"

/-- The `actorAvatar` fragment: an avatar img when the actor and its
avatar url are truthy, else the empty string. -/
def actorAvatarOf (e : Event) : String :=
  match e.actor with
  | none => ""
  | some a =>
    match a.avatar_url with
    | none => ""
    | some u =>
      if u = "" then ""
      else "<img src=\"" ++ u ++
        "\" alt=\"avatar\" style=\"width:28px;height:28px;border-radius:50%;margin-right:7px;vertical-align:middle;\">"

/-- The `repoLink` fragment: a bold repository link when the repo record
and its name are truthy, else the empty string. -/
def repoLinkOf (e : Event) : String :=
  match e.repo with
  | none => ""
  | some r =>
    match r.name with
    | none => ""
    | some n =>
      if n = "" then ""
      else "<a style=\"font-weight:bold\" href=\"https://github.com/" ++ n ++
        "\" target=\"_blank\" rel=\"noopener noreferrer\">" ++ n ++ "</a>"

/-- `commit.sha?.substring(0, 7) || "?"` of the Push commit loop. -/
def shaAbbrev (sha : Option String) : String :=
  match sha with
  | none => "?"
  | some s => if jsSlice s 7 = "" then "?" else jsSlice s 7

/-- The first line of a commit message, with the " ..." ellipsis marker
appended when the message has further lines (the `messages` cascade of
the Push commit loop; the length-0 arm is unreachable since `split`
always yields at least one segment). -/
def commitDisplayMessage (message : Option String) : String :=
  match splitNl (jsStrOr message "") with
  | [] => ""
  | [m] => m
  | m :: _ => m ++ " ..."

/-- Link-and-SHA part of one Push commit bullet, up to and including the
`"**: "` separator. -/
def commitBulletPre (repoName : Option String) (c : Commit) : String :=
  "- **[" ++ shaAbbrev c.sha ++ "](https://github.com/" ++ jsStrOr repoName "" ++
    "/commit/" ++ jsInterp c.sha ++ ")**: "

/-- One markdown bullet of the Push commit list. -/
def commitBullet (repoName : Option String) (c : Commit) : String :=
  commitBulletPre repoName c ++ commitDisplayMessage c.message

/-- Worker for `pushCommitLines`: a null commit element throws a TypeError
at `commit.message` in JS, modelled as `Except.error`. -/
def pushCommitLinesGo (repoName : Option String) : List (Option Commit) → Except Unit (List String)
  | [] => Except.ok []
  | none :: _ => Except.error ()
  | some c :: rest =>
    match pushCommitLinesGo repoName rest with
    | Except.ok ls => Except.ok (commitBullet repoName c :: ls)
    | Except.error e => Except.error e

/-- The `for (const commit of commits.slice(0, 9))` loop of the Push
branch: bullets for at most the first 9 commits. -/
def pushCommitLines (repoName : Option String) (commits : List (Option Commit)) :
    Except Unit (List String) :=
  pushCommitLinesGo repoName (commits.take 9)

/-- Worker for the Gollum page list: a null page element throws a
TypeError at `page.action` in JS. -/
def gollumLinesGo : List (Option GollumPage) → Except Unit (List String)
  | [] => Except.ok []
  | none :: _ => Except.error ()
  | some p :: rest =>
    match gollumLinesGo rest with
    | Except.ok ls =>
      Except.ok (("- " ++ jsInterp p.action ++ " [" ++ jsInterp p.page_name ++ "](" ++
        jsInterp p.html_url ++ ")") :: ls)
    | Except.error e => Except.error e

/-- The `for (const page of pages.slice(0, 9))` loop of the Gollum
branch. -/
def gollumLines (pages : List (Option GollumPage)) : Except Unit (List String) :=
  gollumLinesGo (pages.take 9)

/-- `payload?.comment?.commit_id?.substring(0, 7) || "???"`. -/
def commitIdAbbrev (o : Option String) : String :=
  match o with
  | none => "???"
  | some s => if jsSlice s 7 = "" then "???" else jsSlice s 7

/-- Header sentence of the Push branch (actor, compare link with the
count phrase, target repo). -/
def pushHeader (e : Event) : String :=
  let sz := e.payload.bind Payload.size
  actorAvatarOf e ++ actorLinkOf e ++ " pushed <a href=\"https://github.com/" ++
    jsStrOr (e.repo.bind Repo.name) "" ++ "/compare/" ++
    jsStrOr (e.payload.bind Payload.before) "" ++ "..." ++
    jsStrOr (e.payload.bind Payload.head) "" ++
    "\" target=\"_blank\" rel=\"noopener noreferrer\">" ++
    (if sz.getD 0 = 0 then "something"
     else toString (sz.getD 0) ++ " " ++ (if sz = some 1 then "commit" else "commits")) ++
    "</a> to " ++ repoLinkOf e

/-- The whole `case "PushEvent"` arm: the header sentence, followed (when
the commits array is non-empty) by the bullet list rendered through
`renderBodyOrShortHtml`; a null commit element makes the arm throw. -/
def pushBranch (cfg : Config) (e : Event) : Except Unit String :=
  let commits := (e.payload.bind Payload.commits).getD []
  if 0 < commits.length then
    match pushCommitLines (e.repo.bind Repo.name) commits with
    | Except.error _ => Except.error ()
    | Except.ok ls =>
      Except.ok (pushHeader e ++
        renderBodyOrShortHtml cfg (some (String.intercalate "\n" ls)) none)
  else Except.ok (pushHeader e)

/-- The `switch (type)` dispatch of `renderEventCard`, producing the card
content string; `Except.error` marks the arms where the JS code throws on
a malformed payload (a null element inside `commits` or `pages`). The
whitespace inside the string literals reproduces the multi-line template
literals of the source. -/
def dispatchContent (cfg : Config) (e : Event) : Except Unit String :=
  let aAv := actorAvatarOf e
  let aLk := actorLinkOf e
  let rLk := repoLinkOf e
  let p := e.payload
  match e.type with
  | some "WatchEvent" =>
    Except.ok (aAv ++ aLk ++ " " ++
      (if p.bind Payload.action = some "started" then "starred"
       else jsStrOr (p.bind Payload.action) "did") ++ " " ++ rLk)
  | some "ForkEvent" =>
    Except.ok (aAv ++ aLk ++ " forked <a href=\"" ++
      jsStrOr ((p.bind Payload.forkee).bind Forkee.html_url) "#" ++
      "\" target=\"_blank\" rel=\"noopener noreferrer\">" ++
      DOMPurifySanitize (jsStrOr ((p.bind Payload.forkee).bind Forkee.full_name) "") ++
      "</a> from " ++ rLk)
  | some "PushEvent" => pushBranch cfg e
  | some "CreateEvent" =>
    if p.bind Payload.ref_type = some "repository" then
      Except.ok (aAv ++ aLk ++ " created repository " ++ rLk)
    else
      Except.ok (aAv ++ aLk ++ " created " ++ jsStrOr (p.bind Payload.ref_type) "" ++
        " <strong>" ++ DOMPurifySanitize (jsStrOr (p.bind Payload.ref) "") ++
        "</strong> in " ++ rLk)
  | some "DeleteEvent" =>
    Except.ok (aAv ++ aLk ++ " deleted " ++ jsStrOr (p.bind Payload.ref_type) "" ++
      " <strong>" ++ DOMPurifySanitize (jsStrOr (p.bind Payload.ref) "") ++
      "</strong> in " ++ rLk)
  | some "PublicEvent" =>
    Except.ok (aAv ++ aLk ++ " open sourced " ++ rLk)
  | some "IssueCommentEvent" =>
    let c := p.bind Payload.comment
    Except.ok (aAv ++ aLk ++ " commented on \n                      <a href=\"" ++
      jsStrOr (c.bind Comment.html_url) "#" ++
      "\" target=\"_blank\" rel=\"noopener noreferrer\">issue #" ++
      jsNumOr ((p.bind Payload.issue).bind Issue.number) "?" ++ "</a> in " ++ rLk ++
      renderBodyOrShortHtml cfg (c.bind Comment.body) none ++
      reactionsSuffix (c.bind Comment.reactions))
  | some "IssuesEvent" =>
    let i := p.bind Payload.issue
    Except.ok (aAv ++ aLk ++ " " ++ jsStrOr (p.bind Payload.action) "did" ++
      "\n                    <a href=\"" ++ jsStrOr (i.bind Issue.html_url) "#" ++
      "\" target=\"_blank\" rel=\"noopener noreferrer\">issue #" ++
      jsNumOr (i.bind Issue.number) "?" ++ "</a> in " ++ rLk ++
      renderBodyOrShortHtml cfg (some ("##### " ++ jsStrOr (i.bind Issue.title) "")) none ++
      reactionsSuffix (i.bind Issue.reactions))
  | some "PullRequestEvent" =>
    let pr := p.bind Payload.pull_request
    Except.ok (aAv ++ aLk ++ " " ++ jsStrOr (p.bind Payload.action) "did" ++
      " \n                    <a href=\"" ++ jsStrOr (pr.bind PullRequest.html_url) "#" ++
      "\" target=\"_blank\" rel=\"noopener noreferrer\">pull request #" ++
      jsNumOr (pr.bind PullRequest.number) "?" ++ "</a> in " ++ rLk ++
      renderBodyOrShortHtml cfg
        (some ("##### " ++ jsStrOr (pr.bind PullRequest.title) "" ++ "\n" ++
          jsStrOr (pr.bind PullRequest.body) "")) none ++
      reactionsSuffix (pr.bind PullRequest.reactions))
  | some "PullRequestReviewEvent" =>
    let pr := p.bind Payload.pull_request
    let rv := p.bind Payload.review
    Except.ok (aAv ++ aLk ++ " reviewed \n                    <a href=\"" ++
      jsStrOr (rv.bind Review.html_url) "#" ++
      "\" target=\"_blank\" rel=\"noopener noreferrer\">pull request #" ++
      jsNumOr (pr.bind PullRequest.number) "?" ++ "</a> in " ++ rLk ++
      renderBodyOrShortHtml cfg
        (some ("##### " ++ jsStrOr (pr.bind PullRequest.title) "" ++ "\n" ++
          jsStrOr (rv.bind Review.body) "")) none ++
      reactionsSuffix (rv.bind Review.reactions))
  | some "PullRequestReviewCommentEvent" =>
    let pr := p.bind Payload.pull_request
    let c := p.bind Payload.comment
    Except.ok (aAv ++ aLk ++ " commented on \n                    <a href=\"" ++
      jsStrOr (c.bind Comment.html_url) "#" ++
      "\" target=\"_blank\" rel=\"noopener noreferrer\">pull request #" ++
      jsNumOr (pr.bind PullRequest.number) "?" ++ "</a> in " ++ rLk ++
      renderBodyOrShortHtml cfg
        (some ("##### " ++ jsStrOr (pr.bind PullRequest.title) "" ++ "\n" ++
          jsStrOr (c.bind Comment.body) "")) none ++
      reactionsSuffix (c.bind Comment.reactions))
  | some "CommitCommentEvent" =>
    let c := p.bind Payload.comment
    Except.ok (aAv ++ aLk ++ " commented on \n                    <a href=\"" ++
      jsStrOr (c.bind Comment.html_url) "#" ++
      "\" target=\"_blank\" rel=\"noopener noreferrer\">commit " ++
      commitIdAbbrev (c.bind Comment.commit_id) ++ "</a> in " ++ rLk ++
      renderBodyOrShortHtml cfg (c.bind Comment.body) none ++
      reactionsSuffix (c.bind Comment.reactions))
  | some "MemberEvent" =>
    let m := p.bind Payload.member
    Except.ok (aAv ++ aLk ++ " added <a href=\"https://github.com/" ++
      encodeURIComponent (jsStrOr (m.bind MemberRec.login) "") ++
      "\" target=\"_blank\" rel=\"noopener noreferrer\">" ++
      DOMPurifySanitize (jsStrOr (m.bind MemberRec.login) "") ++ "</a> to " ++ rLk)
  | some "GollumEvent" =>
    let pages := (p.bind Payload.pages).getD []
    if 0 < pages.length then
      match gollumLines pages with
      | Except.error _ => Except.error ()
      | Except.ok ls =>
        Except.ok (aAv ++ aLk ++ " edited wiki in " ++ rLk ++
          renderBodyOrShortHtml cfg (some (String.intercalate "\n" ls)) none)
    else Except.ok (aAv ++ aLk ++ " edited wiki in " ++ rLk)
  | some "ReleaseEvent" =>
    let rl := p.bind Payload.release
    Except.ok (aAv ++ aLk ++ " " ++ jsStrOr (p.bind Payload.action) "did" ++
      " \n                  <a href=\"" ++ jsStrOr (rl.bind Release.html_url) "#" ++
      "\" target=\"_blank\" rel=\"noopener noreferrer\">release " ++
      DOMPurifySanitize
        (jsStrOr (rl.bind Release.name) (jsStrOr (rl.bind Release.tag_name) "")) ++
      "</a> in " ++ rLk ++
      renderBodyOrShortHtml cfg (rl.bind Release.body) none ++
      reactionsSuffix (rl.bind Release.reactions))
  | some "SponsorshipEvent" =>
    Except.ok (aAv ++ aLk ++ " sponsored or received a sponsorship.")
  | _ =>
    Except.ok (aAv ++ aLk ++ " did <code>" ++
      DOMPurifySanitize (jsStrOr e.type "") ++ "</code> in " ++ rLk)

/-- The degraded fallback content built by the catch block of
`renderEventCard`. -/
def fallbackContent (e : Event) : String :=
  actorAvatarOf e ++ actorLinkOf e ++ " [Render error] " ++ repoLinkOf e ++ " " ++
    DOMPurifySanitize (jsStrOr e.type "")

/-- Content stage of `renderEventCard` with its try/catch: a throwing
branch is caught and replaced by the fallback, and the failure is logged
to the (console-wrapped) error channel. The second component is the list
of error-channel messages emitted. -/
def cardContent (cfg : Config) (e : Event) : String × List String :=
  match dispatchContent cfg e with
  | Except.ok c => (c, [])
  | Except.error _ => (fallbackContent e, ["Error rendering card for event:"])

/-- `renderEventCard(event)`: the full card inner HTML (content plus the
time-ago footer, sanitized) together with the emitted error-channel
messages. Card CSS classes and inline styles, which depend only on the
sidebar toggle, are not part of the content model. -/
def renderEventCard (cfg : Config) (nowMs : Int) (e : Event) : String × List String :=
  let c := cardContent cfg e
  (DOMPurifySanitize ("<div>" ++ c.1 ++ "</div>\n        <div style=\"margin-top:7px;color:gray;font-size:85%\">" ++
    timeAgo e.created_at nowMs ++ "</div>"), c.2)

/-- The card-rendering loop of `renderFeed`: one card per event. -/
def renderBatch (cfg : Config) (nowMs : Int) (evs : List Event) : List String :=
  evs.map (fun e => (renderEventCard cfg nowMs e).1)

/-! ## Fetch and feed state machine -/

/-- Outcome of the underlying HTTP fetch as observed by
`fetchReceivedEvents`: a network failure (the `fetch` promise rejects), or
a response with a status, an optional `Link` header and a parsed JSON body
(`none` when the body is not an array). -/
inductive HttpOutcome where
  | netError
  | response (status : Nat) (link : Option String) (body : Option (List Event))

/-- JS `res.ok`: status in the range 200..299. -/
def jsResOk (status : Nat) : Bool :=
  decide (200 ≤ status) && decide (status < 300)

/-- The `Link` header test of `fetchReceivedEvents`: a missing header
means no next page, otherwise the header is tested for the literal text
`rel="next"`. -/
def linkHasNext (link : Option String) : Bool :=
  match link with
  | none => false
  | some l => strHasSub l "rel=\"next\""

/-- `fetchReceivedEvents`: throws on a network error, on a 401 (invalid
or expired token), on any other non-2xx status and on a non-array body;
otherwise yields the raw event batch and the next-page signal. -/
def fetchReceivedEvents (o : HttpOutcome) : Except String (List Event × Bool) :=
  match o with
  | .netError => Except.error "Fetch error"
  | .response status link body =>
    if status = 401 then Except.error "Token is invalid or expired"
    else if !jsResOk status then Except.error "GitHub API error"
    else
      match body with
      | none => Except.error "Unexpected GitHub API response: not an array"
      | some events => Except.ok (events, linkHasNext link)

/-- The mutable feed state of the script (`eventsList`, `currentPage`,
`hasMore`). -/
structure FeedState where
  eventsList : List Event
  currentPage : Nat
  hasMore : Bool

/-- Initial values of the state variables at script start. -/
def initialState : FeedState :=
  ⟨[], 1, true⟩

/-- The `if (actorFilterEnabled) newEvents = newEvents.filter(...)` step. -/
def applyActorFilter (enabled : Bool) (evs : List Event) : List Event :=
  if enabled then evs.filter (fun ev => !isActorFiltered ev.actor) else evs

/-- State transition of the More button click handler (`btn.onclick`):
on fetch success the filtered batch is appended, the page advances and
`hasMore` becomes the next-page signal AND the non-emptiness of the
filtered batch; on fetch failure `hasMore` is forced false, the error is
logged and the state is otherwise untouched. The second component is the
list of error-channel messages emitted. -/
def moreBtnOnClick (actorFilterOn : Bool) (s : FeedState) (o : HttpOutcome) :
    FeedState × List String :=
  match fetchReceivedEvents o with
  | Except.ok (events, hasNext) =>
    let newEvents := applyActorFilter actorFilterOn events
    (⟨s.eventsList ++ newEvents, s.currentPage + 1,
      hasNext && decide (0 < newEvents.length)⟩, [])
  | Except.error e =>
    (⟨s.eventsList, s.currentPage, false⟩, ["Load more error: " ++ e])

/-- State transition of `initialLoad`: on fetch success the filtered batch
replaces `eventsList` with page 1 and the same `hasMore` rule as the More
handler; on fetch failure `eventsList` is set to the empty list (its value
at the single call site, right after state initialization), `hasMore` is
forced false and the error is logged. -/
def initialLoad (actorFilterOn : Bool) (o : HttpOutcome) : FeedState × List String :=
  match fetchReceivedEvents o with
  | Except.ok (events, hasNext) =>
    let filtered := applyActorFilter actorFilterOn events
    (⟨filtered, 1, hasNext && decide (0 < filtered.length)⟩, [])
  | Except.error e =>
    (⟨[], 1, false⟩, ["initialLoad error: " ++ e])

/-! ## Concrete sample values for witnesses and counterexamples -/

/-- An all-absent payload, to be refined per sample event. -/
def emptyPayload : Payload :=
  ⟨none, none, none, none, none, none, none, none, none, none, none, none, none,
   none, none⟩

/-- The dependabot actor, matched by the second rule of
`ACTOR_FILTER_LIST` (on both `id` and `login`). -/
def botActor : Actor :=
  ⟨some 49699333, some "dependabot[bot]", some "dependabot", none⟩

/-- A Watch event performed by the dependabot actor. -/
def botEvent : Event :=
  ⟨some "WatchEvent", some botActor, some ⟨some "octo/repo"⟩, JSDate.absent,
   some { emptyPayload with action := some "started" }⟩

/-- A Link header carrying a `rel="next"` token. -/
def nextLinkHeader : String :=
  "<https://api.github.com/user/1/received_events?page=2>; rel=\"next\""

/-- A successful response whose whole (non-empty) batch is bot noise and
whose Link header signals a next page. -/
def botPageOutcome : HttpOutcome :=
  HttpOutcome.response 200 (some nextLinkHeader) (some [botEvent])

/-- A Push event whose commits array contains a null element: the Push
branch throws a TypeError at `commit.message`. -/
def badPushEvent : Event :=
  ⟨some "PushEvent", some ⟨some 7, some "alice", some "alice", none⟩,
   some ⟨some "octo/repo"⟩, JSDate.absent,
   some { emptyPayload with commits := some [none], size := some 1 }⟩

/-- A default render configuration (body rendering off). -/
def cfg0 : Config :=
  ⟨false, false⟩

/-- Reactions with a single positive count (two thumbs up). -/
def sampleReactions : Reactions :=
  ⟨some 2, some 0, none, none, none, none, none, none⟩

/-- The badge list produced for `sampleReactions`. -/
def sampleBadges : List Badge :=
  [⟨"+1", "👍", "Thumbs up", 2, "2 Thumbs up", true⟩]

/-- A 201-character printable-ASCII string. -/
def longAscii : String :=
  String.mk (List.replicate 201 'a')

/-- A commit with a two-line message. -/
def sampleCommit : Commit :=
  ⟨some "0123456789", some "line1\nline2"⟩

/-! ## General helper lemmas -/

/-- Length of a `String.mk`. -/
theorem strmk_length (l : List Char) : (String.mk l).length = l.length := rfl

/-- A string length is the length of its character list. -/
theorem strlen_eq_data (s : String) : s.length = s.data.length := rfl

/-- Character list of an appended string. -/
theorem strdata_append (s t : String) : (s ++ t).data = s.data ++ t.data := by
  cases s; cases t; rfl

/-- A string with a non-empty second append component is non-empty. -/
theorem str_append_ne_empty (a b : String) (hb : b.length ≠ 0) : a ++ b ≠ "" := by
  intro h
  have hl := congrArg String.length h
  rw [String.length_append] at hl
  have h0 : ("" : String).length = 0 := rfl
  omega

/-- Length of a `filterMap` as a count of the hits. -/
theorem length_filterMap_countP {α β : Type} (f : α → Option β) (l : List α) :
    (l.filterMap f).length = l.countP (fun a => (f a).isSome) := by
  induction l with
  | nil => rfl
  | cons a l ih =>
    cases h : f a <;>
      simp [List.filterMap_cons, h, List.countP_cons, ih]

/-! ## Theorems for the claims -/

/-- Shift invariance of the `timeAgo` label (only the difference between
the clock and the event date matters). -/
theorem timeAgo_shift (ms nowMs : Int) :
    timeAgo (JSDate.valid ms) nowMs = timeAgoLabel (nowMs - ms) := rfl

/-- C2, as stated, is false on the code: 61 seconds after the event date,
`timeAgo` yields the special-cased singular label "a minute ago", not the
floor-based "1 minutes ago" demanded by the claim. -/
theorem c2_counterexample :
    timeAgo (JSDate.valid 0) 61000 = "a minute ago" ∧
    ¬ timeAgo (JSDate.valid 0) 61000 = "1 minutes ago" := by
  constructor
  · decide
  · decide

/-- C2 (amended): the golden boundary outputs of `timeAgo` are: 9 seconds
→ "now"; 61 seconds → "a minute ago"; 90 minutes → "an hour ago"; 8 days
→ "a week ago". The singular buckets are special-cased; the plural
floor-based wording starts at 2 units. -/
theorem c2_timeAgo_golden_amended (start : Int) :
    timeAgo (JSDate.valid start) (start + 9000) = "now" ∧
    timeAgo (JSDate.valid start) (start + 61000) = "a minute ago" ∧
    timeAgo (JSDate.valid start) (start + 5400000) = "an hour ago" ∧
    timeAgo (JSDate.valid start) (start + 691200000) = "a week ago" := by
  refine ⟨?_, ?_, ?_, ?_⟩ <;> rw [timeAgo_shift]
  · rw [show start + (9000 : Int) - start = 9000 by omega]; decide
  · rw [show start + (61000 : Int) - start = 61000 by omega]; decide
  · rw [show start + (5400000 : Int) - start = 5400000 by omega]; decide
  · rw [show start + (691200000 : Int) - start = 691200000 by omega]; decide

/-- The bucket cascade never yields the empty string. -/
theorem timeAgoLabel_ne_empty (diffMs : Int) : timeAgoLabel diffMs ≠ "" := by
  rw [timeAgoLabel]
  dsimp only
  split_ifs <;>
    first
      | decide
      | (apply str_append_ne_empty; decide)

/-- C10: `timeAgo` yields the empty string exactly on absent (null,
undefined or empty) and unparsable date inputs; a non-empty label is
produced exactly for parsable dates, and no exception or NaN label ever
escapes. -/
theorem c10_timeAgo_empty_iff_unparsable (d : JSDate) (nowMs : Int) :
    ¬ timeAgo d nowMs = "" ↔ ∃ ms, d = JSDate.valid ms := by
  cases d with
  | absent => simp [timeAgo]
  | invalid => simp [timeAgo]
  | valid ms =>
    refine iff_of_true ?_ ⟨ms, rfl⟩
    rw [timeAgo_shift]
    exact timeAgoLabel_ne_empty _

/-- A single present field of a rule matches exactly when the rule field
is present and the actor carries the strictly equal value. -/
theorem fieldHit_iff {α : Type} [DecidableEq α] (rf af : Option α) :
    fieldHit rf af = true ↔ ∃ v, rf = some v ∧ af = some v := by
  cases rf <;> cases af <;> simp [fieldHit, eq_comm]

/-- One rule matches exactly when one of its present fields matches
(fields are OR-ed, never AND-ed). -/
theorem ruleMatches_iff (r : ActorFilterRule) (a : Actor) :
    ruleMatches r a = true ↔
      ((∃ v, r.id = some v ∧ a.id = some v) ∨
       (∃ v, r.login = some v ∧ a.login = some v) ∨
       (∃ v, r.display_login = some v ∧ a.display_login = some v)) := by
  simp [ruleMatches, Bool.or_eq_true, fieldHit_iff, or_assoc]

/-- C3: `isActorFiltered` is true exactly when the actor is present and
some rule of the fixed list has a present field whose value strictly
equals the corresponding actor field; rules and fields are OR-ed, and a
null/absent actor is never filtered. -/
theorem c3_isActorFiltered_iff (oa : Option Actor) :
    isActorFiltered oa = true ↔
      ∃ a, oa = some a ∧ ∃ rule ∈ ACTOR_FILTER_LIST,
        ((∃ v, rule.id = some v ∧ a.id = some v) ∨
         (∃ v, rule.login = some v ∧ a.login = some v) ∨
         (∃ v, rule.display_login = some v ∧ a.display_login = some v)) := by
  cases oa with
  | none => simp [isActorFiltered]
  | some a =>
    rw [isActorFiltered, List.any_eq_true]
    constructor
    · rintro ⟨r, hr, hm⟩
      exact ⟨a, rfl, r, hr, (ruleMatches_iff r a).mp hm⟩
    · rintro ⟨a2, ha, r, hr, hm⟩
      injection ha with ha2
      subst ha2
      exact ⟨r, hr, (ruleMatches_iff r a).mpr hm⟩

/-- Count of a given id after a cons. -/
theorem countId_cons (x : String) (xs : List String) (sid : String) :
    countId (x :: xs) sid = countId xs sid + (if x = sid then 1 else 0) := by
  simp [countId, List.countP_cons]

/-- Removing the old section from a document holding at most one node
with the id leaves no node with the id. -/
theorem countId_removeOldSection (doc : List String) (sid : String)
    (h : countId doc sid ≤ 1) : countId (removeOldSection doc sid) sid = 0 := by
  induction doc with
  | nil => rfl
  | cons x xs ih =>
    rw [countId_cons] at h
    by_cases hx : x = sid
    · rw [removeOldSection, if_pos hx]
      rw [if_pos hx] at h
      omega
    · rw [removeOldSection, if_neg hx, countId_cons, if_neg hx]
      rw [if_neg hx] at h
      have := ih (by omega)
      omega

/-- One section insertion on a document holding at most one node with the
id leaves exactly one node with the id. -/
theorem countId_insert (doc : List String) (sid : String)
    (h : countId doc sid ≤ 1) :
    countId (insertEventsSectionSibling doc sid) sid = 1 := by
  rw [insertEventsSectionSibling, countId_cons, if_pos rfl,
    countId_removeOldSection doc sid h]

/-- C8: mount insertion is idempotent with respect to the container id:
after any sequence of one or more invocations of the section-insertion
operation with the same section id on a page holding at most one node
with that id (in particular a fresh page with none), exactly one
container node with that id exists, because any prior container with the
id is removed before the new one is inserted. -/
theorem c8_mount_idempotent (doc : List String) (sid : String) (n : Nat)
    (h0 : countId doc sid ≤ 1) (hn : 1 ≤ n) :
    countId (insertIter doc sid n) sid = 1 := by
  induction n with
  | zero => omega
  | succ m ih =>
    by_cases hm : m = 0
    · subst hm
      rw [insertIter, insertIter]
      exact countId_insert doc sid h0
    · have h1 := ih (by omega)
      rw [insertIter]
      exact countId_insert _ sid (by omega)

/-- Witness for C8 at a concrete input: two insertions into an empty
document leave exactly one section node. -/
theorem c8_witness :
    countId ([] : List String) "__gh-dashboard-feed-section__" ≤ 1 ∧
    countId (insertIter [] "__gh-dashboard-feed-section__" 2)
      "__gh-dashboard-feed-section__" = 1 :=
  ⟨by decide,
   c8_mount_idempotent [] "__gh-dashboard-feed-section__" 2 (by decide) (by decide)⟩

/-- C1, as stated, is false on the code: a fetch that succeeds with a
non-empty batch (one dependabot event) and a next-page signal, all of
whose events the actor filter removes, leaves `hasMore = false` after the
More click and after the initial load — `hasMore` is computed from the
emptiness of the batch AFTER actor filtering, not of the raw batch. -/
theorem c1_counterexample :
    fetchReceivedEvents botPageOutcome = Except.ok ([botEvent], true) ∧
    applyActorFilter true [botEvent] = [] ∧
    (moreBtnOnClick true initialState botPageOutcome).1.hasMore = false ∧
    ¬ (moreBtnOnClick true initialState botPageOutcome).1.hasMore = true ∧
    (initialLoad true botPageOutcome).1.hasMore = false := by
  refine ⟨rfl, rfl, rfl, ?_, rfl⟩
  intro h
  exact absurd h (by decide)

/-- C1 (amended): for every load cycle whose fetch succeeds, `hasMore` is
the conjunction of the next-page signal with the non-emptiness of the
POST-FILTER batch: in particular, when actor filtering removes every
event from a non-empty batch carrying a next-page signal, `hasMore` is
false afterwards. -/
theorem c1_hasMore_from_filtered_batch (actorFilterOn : Bool) (s : FeedState)
    (o : HttpOutcome) (events : List Event) (hasNext : Bool)
    (h : fetchReceivedEvents o = Except.ok (events, hasNext)) :
    ((moreBtnOnClick actorFilterOn s o).1.hasMore = true ↔
      hasNext = true ∧ applyActorFilter actorFilterOn events ≠ []) ∧
    ((initialLoad actorFilterOn o).1.hasMore = true ↔
      hasNext = true ∧ applyActorFilter actorFilterOn events ≠ []) := by
  constructor <;>
    simp [moreBtnOnClick, initialLoad, h, Bool.and_eq_true, decide_eq_true_eq,
      List.length_pos]

/-- Witness for C1 (amended) at a concrete input: with filtering off, the
bot page keeps its event, so `hasMore` follows the next-page signal. -/
theorem c1_witness :
    fetchReceivedEvents botPageOutcome = Except.ok ([botEvent], true) ∧
    ((moreBtnOnClick false initialState botPageOutcome).1.hasMore = true ↔
      true = true ∧ applyActorFilter false [botEvent] ≠ []) :=
  ⟨rfl,
   (c1_hasMore_from_filtered_batch false initialState botPageOutcome [botEvent]
     true rfl).1⟩

/-- C5: on every load cycle whose fetch fails (network error, 401, other
non-2xx, or non-array payload — all the `Except.error` outcomes of
`fetchReceivedEvents`), the More handler leaves `eventsList` and
`currentPage` exactly as they were, forces `hasMore` to false and reports
the error; `initialLoad` on failure likewise reports, forces `hasMore`
false and leaves `eventsList` at its value at the single call site (the
initial empty list). No partial batch is ever appended. -/
theorem c5_fetch_failure_atomic (actorFilterOn : Bool) (s : FeedState)
    (o : HttpOutcome) (msg : String)
    (h : fetchReceivedEvents o = Except.error msg) :
    (moreBtnOnClick actorFilterOn s o).1.eventsList = s.eventsList ∧
    (moreBtnOnClick actorFilterOn s o).1.currentPage = s.currentPage ∧
    (moreBtnOnClick actorFilterOn s o).1.hasMore = false ∧
    (moreBtnOnClick actorFilterOn s o).2 ≠ [] ∧
    (initialLoad actorFilterOn o).1.eventsList = initialState.eventsList ∧
    (initialLoad actorFilterOn o).1.hasMore = false ∧
    (initialLoad actorFilterOn o).2 ≠ [] := by
  simp [moreBtnOnClick, initialLoad, h, initialState]

/-- Witness for C5 at a concrete input: a network error during the More
click leaves the accumulated list untouched. -/
theorem c5_witness :
    fetchReceivedEvents HttpOutcome.netError = Except.error "Fetch error" ∧
    (moreBtnOnClick true initialState HttpOutcome.netError).1.eventsList =
      initialState.eventsList :=
  ⟨rfl,
   (c5_fetch_failure_atomic true initialState HttpOutcome.netError "Fetch error"
     rfl).1⟩

/-- C4: the renderer is total — the dispatch try/catch of
`renderEventCard` never lets an exception escape. When a per-kind branch
throws (a malformed payload), the card content is exactly the degraded
fallback made of the actor link, the repo link and the literal
"[Render error]" marker, and the failure is logged to the error channel;
the batch loop still yields one card per event, so the rest of the batch
renders normally. -/
theorem c4_render_error_fallback (cfg : Config) (e : Event)
    (h : dispatchContent cfg e = Except.error ()) :
    cardContent cfg e =
      (actorAvatarOf e ++ actorLinkOf e ++ " [Render error] " ++ repoLinkOf e ++
        " " ++ DOMPurifySanitize (jsStrOr e.type ""),
       ["Error rendering card for event:"]) ∧
    (∀ nowMs : Int,
      (renderEventCard cfg nowMs e).2 = ["Error rendering card for event:"]) ∧
    (∀ (nowMs : Int) (evs : List Event) (i : Nat),
      (renderBatch cfg nowMs evs).get? i =
        (evs.get? i).map (fun ev => (renderEventCard cfg nowMs ev).1)) := by
  refine ⟨?_, ?_, ?_⟩
  · simp [cardContent, h, fallbackContent]
  · intro nowMs
    simp [renderEventCard, cardContent, h]
  · intro nowMs evs i
    simp [renderBatch, List.get?_map]

/-- Witness for C4 at a concrete input: a Push event whose commits array
contains a null element throws in the Push branch, and the card degrades
to the fallback content. -/
theorem c4_witness :
    dispatchContent cfg0 badPushEvent = Except.error () ∧
    (cardContent cfg0 badPushEvent).1 =
      actorAvatarOf badPushEvent ++ actorLinkOf badPushEvent ++
        " [Render error] " ++ repoLinkOf badPushEvent ++ " " ++
        DOMPurifySanitize (jsStrOr badPushEvent.type "") :=
  ⟨rfl, congrArg Prod.fst ((c4_render_error_fallback cfg0 badPushEvent rfl).1)⟩

/-- The positivity test holds exactly for a present positive count. -/
theorem jsPos_iff (o : Option Int) : jsPos o = true ↔ ∃ c, o = some c ∧ 0 < c := by
  cases o <;> simp [jsPos]

/-- The badge loop body yields a badge exactly when the count is a
positive number. -/
theorem badgeOf_isSome (r : Reactions) (m : ReactionMeta) :
    (badgeOf r m).isSome = jsPos (reactGet r m.key) := by
  cases h : reactGet r m.key with
  | none => simp [badgeOf, jsPos, h]
  | some c =>
    by_cases hc : 0 < c <;> simp [badgeOf, jsPos, h, hc]

/-- Characterization of the badge loop body. -/
theorem badgeOf_eq_some (r : Reactions) (m : ReactionMeta) (b : Badge) :
    badgeOf r m = some b ↔
      ∃ c : Int, reactGet r m.key = some c ∧ 0 < c ∧ b = mkBadge m c := by
  cases h : reactGet r m.key with
  | none => simp [badgeOf, h]
  | some c =>
    by_cases hc : 0 < c <;> simp [badgeOf, h, hc, eq_comm]

/-- C6: `renderReactionsBar` yields a bar exactly when some of the 8 known
reaction keys carries a strictly positive numeric count (an absent record
never yields a bar); the produced bar is never the empty container, holds
exactly one badge per positive key (in table order), and every badge comes
from a positive key with its count, aria label and disabled flag. -/
theorem c6_reactions_bar (reactions : Option Reactions) :
    ((renderReactionsBar reactions).isSome = true ↔
      ∃ m ∈ reactionMeta, ∃ c : Int, reactCount reactions m.key = some c ∧ 0 < c) ∧
    ∀ bs, renderReactionsBar reactions = some bs →
      bs ≠ [] ∧
      bs.length =
        reactionMeta.countP (fun m => jsPos (reactCount reactions m.key)) ∧
      ∀ b ∈ bs, ∃ m ∈ reactionMeta, ∃ c : Int,
        reactCount reactions m.key = some c ∧ 0 < c ∧ b = mkBadge m c := by
  cases reactions with
  | none =>
    constructor
    · simp [renderReactionsBar, reactCount]
    · intro bs hbs
      simp [renderReactionsBar] at hbs
  | some r =>
    have hrc : ∀ m : ReactionMeta, reactCount (some r) m.key = reactGet r m.key :=
      fun m => rfl
    by_cases hAny : reactionMeta.any (fun m => jsPos (reactGet r m.key)) = true
    · obtain ⟨m0, hm0, hp0⟩ := List.any_eq_true.mp hAny
      obtain ⟨c0, hc0, hpos0⟩ := (jsPos_iff _).mp hp0
      constructor
      · refine iff_of_true ?_ ⟨m0, hm0, c0, by rw [hrc]; exact hc0, hpos0⟩
        simp [renderReactionsBar, hAny]
      · intro bs hbs
        rw [renderReactionsBar] at hbs
        rw [if_pos hAny] at hbs
        injection hbs with hbs
        subst hbs
        refine ⟨?_, ?_, ?_⟩
        · intro hnil
          have hall := List.filterMap_eq_nil_iff.mp hnil m0 hm0
          have := badgeOf_isSome r m0
          rw [hall, hp0] at this
          exact Bool.false_ne_true this
        · rw [length_filterMap_countP]
          refine List.countP_congr ?_
          intro m hm
          rw [badgeOf_isSome, hrc]
        · intro b hb
          obtain ⟨m, hm, hbm⟩ := List.mem_filterMap.mp hb
          obtain ⟨c, hc, hpos, hbeq⟩ := (badgeOf_eq_some r m b).mp hbm
          exact ⟨m, hm, c, by rw [hrc]; exact hc, hpos, hbeq⟩
    · have hAny2 : reactionMeta.any (fun m => jsPos (reactGet r m.key)) = false :=
        Bool.not_eq_true _ |>.mp hAny
      constructor
      · refine iff_of_false ?_ ?_
        · simp [renderReactionsBar, hAny2]
        · rintro ⟨m, hm, c, hc, hpos⟩
          rw [hrc] at hc
          have := List.any_eq_false.mp hAny2 m hm
          rw [jsPos_iff] at this
          exact this ⟨c, hc, hpos⟩
      · intro bs hbs
        rw [renderReactionsBar] at hbs
        rw [if_neg (by rw [hAny2]; exact Bool.false_ne_true)] at hbs
        cases hbs

/-- Witness for C6 at a concrete input: two thumbs up and nothing else
yields exactly one badge. -/
theorem c6_witness :
    renderReactionsBar (some sampleReactions) = some sampleBadges ∧
    sampleBadges ≠ [] :=
  ⟨rfl, ((c6_reactions_bar (some sampleReactions)).2 sampleBadges rfl).1⟩

/-- The Push commit loop over an array without null elements yields one
bullet per commit. -/
theorem pushCommitLinesGo_map (repoName : Option String) (l : List Commit) :
    pushCommitLinesGo repoName (l.map Option.some) =
      Except.ok (l.map (commitBullet repoName)) := by
  induction l with
  | nil => rfl
  | cons c l ih => simp [pushCommitLinesGo, ih]

/-- C7: in the Push branch, at most the first 9 commits are turned into
markdown bullets; each bullet carries the SHA abbreviated to at most 7
characters, a link to the commit, and only the first line of the commit
message — with the " ..." ellipsis marker appended instead of the further
lines when the message is multi-line; and with body rendering the bullet
list is what enters the rendered card body. -/
theorem c7_push_commit_bullets (rn : Option String) (cs : List Commit) :
    pushCommitLines rn (cs.map Option.some) =
      Except.ok ((cs.take 9).map (commitBullet rn)) ∧
    ((cs.take 9).map (commitBullet rn)).length ≤ 9 ∧
    (∀ (c : Commit) (l : String) (rest : List String),
      splitNl (jsStrOr c.message "") = l :: rest →
      (rest = [] → commitBullet rn c = commitBulletPre rn c ++ l) ∧
      (rest ≠ [] → commitBullet rn c = commitBulletPre rn c ++ (l ++ " ..."))) ∧
    (∀ c : Commit, (shaAbbrev c.sha).length ≤ 7) ∧
    (∀ (cfg : Config) (e : Event),
      e.payload.bind Payload.commits = some (cs.map Option.some) → cs ≠ [] →
      pushBranch cfg e =
        Except.ok (pushHeader e ++ renderBodyOrShortHtml cfg
          (some (String.intercalate "\n"
            ((cs.take 9).map (commitBullet (e.repo.bind Repo.name))))) none)) := by
  refine ⟨?_, ?_, ?_, ?_, ?_⟩
  · rw [pushCommitLines, ← List.map_take, pushCommitLinesGo_map]
  · rw [List.length_map, List.length_take]
    exact min_le_left _ _
  · intro c l rest h
    constructor
    · intro hrest
      subst hrest
      simp [commitBullet, commitDisplayMessage, h]
    · intro hrest
      cases rest with
      | nil => exact absurd rfl hrest
      | cons r rs => simp [commitBullet, commitDisplayMessage, h]
  · intro c
    cases hs : c.sha with
    | none =>
      rw [shaAbbrev]
      decide
    | some s =>
      rw [shaAbbrev]
      split_ifs
      · decide
      · rw [jsSlice, strmk_length, List.length_take]
        exact min_le_left _ _
  · intro cfg e h1 h2
    rw [pushBranch, h1]
    have hlen : 0 < ((cs.map Option.some).length) := by
      rw [List.length_map]
      exact List.length_pos.mpr h2
    rw [Option.getD_some, if_pos hlen, pushCommitLines, ← List.map_take,
      pushCommitLinesGo_map]

/-- Witness for C7 at a concrete input: one commit with a two-line
message yields one bullet ending in the first line plus the ellipsis
marker. -/
theorem c7_witness :
    pushCommitLines (some "octo/repo") ([sampleCommit].map Option.some) =
      Except.ok (([sampleCommit].take 9).map (commitBullet (some "octo/repo"))) ∧
    commitBullet (some "octo/repo") sampleCommit =
      commitBulletPre (some "octo/repo") sampleCommit ++ ("line1" ++ " ...") :=
  ⟨(c7_push_commit_bullets (some "octo/repo") [sampleCommit]).1,
   ((c7_push_commit_bullets (some "octo/repo") [sampleCommit]).2.2.1 sampleCommit
     "line1" ["line2"] rfl).2 (by decide)⟩

/-- The ASCII replacement always lands in the printable range. -/
theorem asciiMap_range (c : Char) :
    0x20 ≤ (asciiMap c).toNat ∧ (asciiMap c).toNat ≤ 0x7E := by
  rw [asciiMap]
  split_ifs with h
  · exact h
  · decide

/-- Every character of the ASCII rendering is printable ASCII. -/
theorem toVisibleAscii_mem (s : String) (c : Char)
    (hc : c ∈ (toVisibleAscii s).data) :
    0x20 ≤ c.toNat ∧ c.toNat ≤ 0x7E := by
  rw [toVisibleAscii] at hc
  obtain ⟨a, _, rfl⟩ := List.mem_map.mp hc
  exact asciiMap_range a

set_option maxRecDepth 4000 in
/-- C9, as stated, is false on the code: a 201-character message is not
hard-truncated to at most 200 characters — the notification text is 203
characters long (200 kept characters plus the three-character ellipsis
marker). -/
theorem c9_counterexample :
    (notifyText longAscii).length = 203 ∧
    ¬ (notifyText longAscii).length ≤ 200 := by
  constructor
  · decide
  · decide

/-- C9 (amended): the notification text is printable-ASCII-only — every
character outside `\x20`..`\x7E` (in particular every non-ASCII
character) is replaced by a question mark, position by position — and
text longer than 200 characters is truncated to its first 200 characters
with a three-character ellipsis appended, for a displayed length of at
most 203. -/
theorem c9_notify_ascii_truncation (s : String) :
    (∀ c ∈ (notifyText s).data, 0x20 ≤ c.toNat ∧ c.toNat ≤ 0x7E) ∧
    (toVisibleAscii s).length = s.length ∧
    (∀ (i : Nat) (c : Char), s.data.get? i = some c →
      (toVisibleAscii s).data.get? i =
        some (if 0x20 ≤ c.toNat ∧ c.toNat ≤ 0x7E then c else '?')) ∧
    ((toVisibleAscii s).length ≤ NOTIFICATION_MAX_LENGTH →
      notifyText s = toVisibleAscii s) ∧
    (NOTIFICATION_MAX_LENGTH < (toVisibleAscii s).length →
      notifyText s = jsSlice (toVisibleAscii s) NOTIFICATION_MAX_LENGTH ++ "..." ∧
      (notifyText s).length = NOTIFICATION_MAX_LENGTH + 3) := by
  refine ⟨?_, ?_, ?_, ?_, ?_⟩
  · intro c hc
    rw [notifyText] at hc
    by_cases hlen : (toVisibleAscii s).length > NOTIFICATION_MAX_LENGTH
    · rw [if_pos hlen, strdata_append] at hc
      rcases List.mem_append.mp hc with h1 | h2
      · rw [jsSlice] at h1
        exact toVisibleAscii_mem s c (List.mem_of_mem_take h1)
      · have hdots : ∀ x ∈ ("..." : String).data,
            0x20 ≤ x.toNat ∧ x.toNat ≤ 0x7E := by decide
        exact hdots c h2
    · rw [if_neg hlen] at hc
      exact toVisibleAscii_mem s c hc
  · rw [toVisibleAscii, strmk_length, List.length_map, strlen_eq_data]
  · intro i c hci
    rw [toVisibleAscii]
    show (s.data.map asciiMap).get? i = _
    rw [List.get?_map, hci]
    rfl
  · intro hle
    rw [notifyText]
    rw [if_neg (Nat.not_lt.mpr hle)]
  · intro hgt
    constructor
    · rw [notifyText]
      rw [if_pos hgt]
    · rw [notifyText]
      rw [if_pos hgt, String.length_append, jsSlice, strmk_length,
        List.length_take]
      have hd : (toVisibleAscii s).length = (toVisibleAscii s).data.length := rfl
      have h3 : ("..." : String).length = 3 := rfl
      rw [h3, Nat.min_eq_left (by omega)]

set_option maxRecDepth 4000 in
/-- Witness for C9 (amended) at a concrete input: the 201-character
message is truncated to 200 characters plus the ellipsis. -/
theorem c9_witness :
    NOTIFICATION_MAX_LENGTH < (toVisibleAscii longAscii).length ∧
    notifyText longAscii =
      jsSlice (toVisibleAscii longAscii) NOTIFICATION_MAX_LENGTH ++ "..." :=
  ⟨by decide, ((c9_notify_ascii_truncation longAscii).2.2.2.2 (by decide)).1⟩

end GhFeed
